import Mathlib

/-!
Verification development for the suspend/resume WebAssembly execution engine
in `src/executor/vm/jit.rs` (structs `JitPrototype` and `Jit`).

The file shallowly embeds the data model and the operations of `jit.rs`:
pure fragments become Lean functions, Rust `Result` becomes `Except`, and a
Rust panic (an `unwrap()` on `Err`/`None`, an `assert!`, an `unimplemented!()`
or an out-of-bounds slice index) becomes a distinguished `crash` constructor
of the operation's outcome type.  Machine integers are modelled as `Nat` with
explicit bounds where overflow matters (`usize` arithmetic is checked against
`2 ^ 64`; `u32` payloads are bit patterns below `2 ^ 32`).

The coroutine module (`mod coroutine;`, referenced at jit.rs line 21) is not
part of the sources; it is modelled from the specification (section 4.1):
`run` yields either an interrupt or the body's final result, and once a
finished result has been produced the context is poisoned forever.  The
body's successive yields are represented by an explicit script.
-/

/-- Wasm value kinds, as in the spec's `Signature` description (section 3):
the primitive numeric kinds Wasm supports. -/
inductive ValueType
  | i32
  | i64
  | f32
  | f64
deriving DecidableEq, Repr

/-- Modelled from the spec (section 3): an ordered list of parameter kinds
plus an optional result kind, describing one function import or export.
The `Signature` type itself lives in `super` (outside the sources). -/
structure Signature where
  params : List ValueType
  ret : Option ValueType
deriving DecidableEq, Repr

/-- Modelled from the spec (section 3): tagged union over the primitive
numeric kinds.  The numeric payloads are carried as raw bit patterns
(`Nat`, intended below the width bound), which also serves as the model of
`wasmtime::Val`; the `From` conversions between `WasmValue` and
`wasmtime::Val` in the source are then identities. -/
inductive WasmValue
  | i32 (bits : Nat)
  | i64 (bits : Nat)
  | f32 (bits : Nat)
  | f64 (bits : Nat)
deriving DecidableEq, Repr

/-- Model of `wasmtime::Trap`: only its presence matters to `jit.rs` (the
trap message is printed and then discarded at jit.rs lines 339-345). -/
abbrev Trap := String

/-- Model of a `wasmtime::Memory` handle: an identity tag plus the current
byte contents behind the handle (`data_unchecked()` exposes the bytes,
`data_size()` their length). -/
structure MemHandle where
  id : Nat
  data : List Nat
deriving DecidableEq, Repr

/-- Model of a `wasmtime::Table` handle (opaque: `jit.rs` only stores and
clones it, never inspects it). -/
abbrev TableHandle := Nat

/-- Model of a `wasmtime::Func` handle (opaque: `jit.rs` only calls it,
which the coroutine script abstracts). -/
abbrev FuncH := Nat

/-- Model of a `wasmtime::Global` handle: the value that `g.get()` returns. -/
structure GlobalH where
  val : WasmValue
deriving DecidableEq, Repr

/-- Model of `wasmtime::Extern`: a typed export (function, global, memory or
table), as returned by `instance.get_export`. -/
inductive Extern
  | func (f : FuncH)
  | global (g : GlobalH)
  | memory (m : MemHandle)
  | table (t : TableHandle)
deriving DecidableEq, Repr

/-- Model of a `wasmtime::Instance`: its named exports.  Lookup takes the
first binding, modelling a name-to-extern map. -/
structure Instance where
  exports : List (String × Extern)
deriving DecidableEq, Repr

/-- Model of `instance.get_export(name)`. -/
def Instance.get_export (self : Instance) (name : String) : Option Extern :=
  self.exports.lookup name

/-- Modelled from the spec (section 7): construction error type `NewErr`
declared in `super` (outside the sources); the variants are the ones
constructed in jit.rs (lines 118, 131, 174, 179).  Note that no
unresolved-import variant is ever constructed in the source. -/
inductive NewErr
  | MemoryIsntMemory
  | IndirectTableIsntTable
  | NotAFunction
  | FunctionNotFound
deriving DecidableEq, Repr

/-- Modelled from the spec (section 7): query error type `GlobalValueErr`
declared in `super`; variants as constructed at jit.rs lines 149 and 151. -/
inductive GlobalValueErr
  | NotFound
  | Invalid
deriving DecidableEq, Repr

/-- Modelled from the spec (section 7): runtime error type `RunErr` declared
in `super`; the variant constructed at jit.rs line 329. -/
inductive RunErr
  | Poisoned
deriving DecidableEq, Repr

/-- Type given to the coroutine (jit.rs lines 265-274). -/
inductive ToCoroutine
  | Start (name : String)
  | Resume (v : Option WasmValue)
  | GetMemoryTable
  | GetGlobal (name : String)
deriving DecidableEq, Repr

/-- Type yielded by the coroutine (jit.rs lines 277-295). -/
inductive FromCoroutine
  | Init (r : Except NewErr Unit)
  | Interrupt (function_index : Nat) (parameters : List WasmValue)
  | GetMemoryTableResponse (memory : Option MemHandle) (indirect_table : Option TableHandle)
  | GetGlobalResponse (r : Except GlobalValueErr Nat)

/-- Modelled from the spec (section 4.1): one step of behaviour of the
coroutine body as observed by the driver — either the body interrupts with a
yielded message, or the body routine finishes with its own return value
(`Ok`, an optional Wasm value) or a trap (`Err`). -/
inductive CoOutcome
  | interrupt (msg : FromCoroutine)
  | finish (result : Except Trap (Option WasmValue))

/-- Modelled from the spec (sections 3 and 4.1): the suspension context of
`mod coroutine` (whose sources are absent).  `script` lists the outcomes the
body will produce on successive resumptions; `finished` is the poisoned
flag, set once and for all when a `finish` outcome is delivered. -/
structure Coroutine where
  script : List CoOutcome
  finished : Bool

/-- Result of driving the coroutine once, as matched in jit.rs:
`coroutine::RunOut::{Interrupted, Finished}`. -/
inductive RunOut
  | interrupted (msg : FromCoroutine)
  | finished (result : Except Trap (Option WasmValue))

/-- Model of `coroutine.is_finished()` (used at jit.rs lines 318 and 328). -/
def Coroutine.is_finished (self : Coroutine) : Bool :=
  self.finished

/-- Modelled from the spec (section 4.1): driving the context transfers the
resume value in and yields the body's next outcome; once a finished outcome
is observed the context is poisoned (`finished := true`).  The resume value
is consumed by the body, which the script already accounts for, so the model
ignores it; an exhausted script is treated as a trap-finish. -/
def Coroutine.run (self : Coroutine) (input : Option ToCoroutine) :
    RunOut × Coroutine :=
  match self.script with
  | [] => (.finished (.error "script exhausted"), { self with finished := true })
  | o :: rest =>
    match o with
    | .interrupt msg => (.interrupted msg, { self with script := rest })
    | .finish result => (.finished result, { script := rest, finished := true })

/-- Outcome of the import trampoline's write-back step: the updated return
slot, or `crash` for a failed `assert!` / the `unreachable!()` branch. -/
inductive TrampolineOutcome
  | ok (ret_val : List WasmValue)
  | crash

/-- Embeds the tail of the import trampoline closure (jit.rs lines 74-84):
`returned` is the message the interrupter yielded back (only
`ToCoroutine::Resume` is legal, anything else is `unreachable!()`);
`ret_val` is the return slot that wasmtime pre-sizes to the import
signature's result arity.  A `Some` resume value asserts the slot has length
one and writes the value into it; a `None` resume value asserts the slot is
empty. -/
def trampolineWriteBack (returned : ToCoroutine) (ret_val : List WasmValue) :
    TrampolineOutcome :=
  match returned with
  | .Resume r =>
    match r with
    | some v => if ret_val.length = 1 then .ok [v] else .crash
    | none => if ret_val.isEmpty then .ok ret_val else .crash
  | _ => .crash

/-- Kind of one module import, as matched at jit.rs lines 59-102
(`wasmtime::ExternType`).  A memory import carries its minimum page count. -/
inductive ImportKind
  | func (sig : Signature)
  | global
  | table
  | memory (limits : Nat)
deriving DecidableEq, Repr

/-- One entry of `module.imports()`: namespace, name and type. -/
structure ImportEntry where
  moduleName : String
  name : String
  ty : ImportKind
deriving DecidableEq, Repr

/-- An extern pushed onto the `imports` vector in `JitPrototype::new`: a
host trampoline function capturing its resolved index, or a freshly created
memory. -/
inductive ResolvedImport
  | func (function_index : Nat)
  | memory (m : MemHandle)
deriving DecidableEq, Repr

/-- Outcome of the import-resolution block of `JitPrototype::new`: the
resolved extern list plus the optional imported memory, or `crash` for the
panics in that block (`unwrap()` on an unresolved symbol, `unimplemented!()`
on global/table imports, failed `assert!` on a duplicate memory import). -/
inductive ImportsOutcome
  | ok (imports : List ResolvedImport) (imported_memory : Option MemHandle)
  | crash

/-- Model of `wasmtime::Memory::new` for a memory type with `limits` minimum
pages: a fresh zero-initialised memory of `limits` 64 KiB pages. -/
def wasmtimeMemoryNew (limits : Nat) : MemHandle :=
  { id := 0, data := List.replicate (limits * 65536) 0 }

/-- Loop of `buildImports`, carrying the `imports` accumulator and the
`imported_memory` slot exactly as the `for` loop at jit.rs lines 58-103. -/
def buildImportsLoop (symbols : String → String → Signature → Except Unit Nat) :
    List ImportEntry → List ResolvedImport → Option MemHandle → ImportsOutcome
  | [], acc, imported_memory => .ok acc imported_memory
  | imp :: rest, acc, imported_memory =>
    match imp.ty with
    | .func f =>
      -- jit.rs lines 61-63: `symbols(...).unwrap()`, with the comment
      -- `TODO: don't panic if not found`: an unresolved import panics.
      match symbols imp.moduleName imp.name f with
      | .ok function_index =>
        buildImportsLoop symbols rest (acc ++ [.func function_index]) imported_memory
      | .error _ => .crash
    | .global => .crash      -- jit.rs line 88: `unimplemented!()`
    | .table => .crash       -- jit.rs line 89: `unimplemented!()`
    | .memory m =>
      match imported_memory with
      | some _ => .crash     -- jit.rs line 93: `assert!(imported_memory.is_none())`
      | none =>
        let handle := wasmtimeMemoryNew m
        buildImportsLoop symbols rest (acc ++ [.memory handle]) (some handle)

/-- Embeds the import-resolution block of `JitPrototype::new` (jit.rs lines
56-105): walk the module's imports, resolving each function import through
the caller-supplied `symbols` closure and instantiating a memory for a
memory import. -/
def buildImports (symbols : String → String → Signature → Except Unit Nat)
    (imports : List ImportEntry) : ImportsOutcome :=
  buildImportsLoop symbols imports [] none

/-- Modelled from the spec (section 6): execution outcome type `ExecOutcome`
declared in `super`; fields as used at jit.rs lines 342-355 (`Finished` with
`return_value : Result<Option<WasmValue>, ()>`, `Interrupted` with the
resolved import id and the argument values). -/
inductive ExecOutcome
  | finished (return_value : Except Unit (Option WasmValue))
  | interrupted (id : Nat) (params : List WasmValue)

/-- Result of `Jit::run`: the mapped execution outcome, the `RunErr`, or
`crash` for the `unreachable!()` protocol-violation branches. -/
inductive RunResult
  | ok (o : ExecOutcome)
  | err (e : RunErr)
  | crash

/-- The running machine (jit.rs lines 298-313): the coroutine holding the
Wasm execution stack, the resolved memory handle and the indirect function
table handle. -/
structure Jit where
  coroutine : Coroutine
  memory : Option MemHandle
  indirect_table : Option TableHandle

/-- Model of `Jit::is_poisoned` (jit.rs lines 317-319). -/
def Jit.is_poisoned (self : Jit) : Bool :=
  self.coroutine.is_finished

/-- Embeds `Jit::run` (jit.rs lines 327-366).  A finished coroutine fails
with `Poisoned`; otherwise the coroutine is resumed with
`ToCoroutine::Resume(value)` and its outcome is mapped: a trap becomes a
generic `Err(())` finish, a normal return carries the optional value, an
`Interrupt` message carries the resolved index and parameters, and any other
message is `unreachable!()`.  The state is mutated through `&mut self` in
the source, so the model returns the updated machine alongside the result. -/
def Jit.run (self : Jit) (value : Option WasmValue) : RunResult × Jit :=
  if self.coroutine.is_finished then
    (.err .Poisoned, self)
  else
    let r := self.coroutine.run (some (.Resume value))
    let outcome : RunResult :=
      match r.1 with
      | .finished (.error _) => .ok (.finished (.error ()))
      | .finished (.ok val) => .ok (.finished (.ok val))
      | .interrupted (.Interrupt function_index parameters) =>
        .ok (.interrupted function_index parameters)
      | .interrupted (.Init _) => .crash
      | .interrupted (.GetGlobalResponse _) => .crash
      | .interrupted (.GetMemoryTableResponse _ _) => .crash
    (outcome, { self with coroutine := r.2 })

/-- Model of `usize` overflow bound for the checked arithmetic in the memory
accessors (64-bit target). -/
def usizeBound : Nat := 2 ^ 64

/-- Embeds `Jit::memory_size` (jit.rs lines 371-378): 0 without a memory,
otherwise `u32::try_from(mem.data_size()).unwrap()` — `none` models the
panic of that `unwrap` when the size exceeds `u32::MAX`. -/
def Jit.memory_size (self : Jit) : Option Nat :=
  match self.memory with
  | none => some 0
  | some mem => if mem.data.length < 2 ^ 32 then some mem.data.length else none

/-- Outcome of `Jit::read_memory`: the copied bytes, the range error
`Err(())`, or `crash` for a panicking slice index. -/
inductive ReadMemOutcome
  | ok (bytes : List Nat)
  | err
  | crash
deriving DecidableEq, Repr

/-- Embeds `Jit::read_memory` (jit.rs lines 383-394): fail without a memory;
`start := offset as usize` (infallible for `u32` on a 64-bit target);
`end := start.checked_add(size)`, failing on `usize` overflow; then
`mem.data_unchecked()[start..end].to_vec()` — the slice index panics
(`crash`) when `end` exceeds the memory's byte length, there is no bounds
check against the memory size before it. -/
def Jit.read_memory (self : Jit) (offset size : Nat) : ReadMemOutcome :=
  match self.memory with
  | none => .err
  | some mem =>
    let start := offset
    if start + size < usizeBound then
      let stop := start + size
      if stop ≤ mem.data.length then
        .ok ((mem.data.drop start).take size)
      else
        .crash
    else
      .err

/-- Outcome of `Jit::write_memory`: the updated memory contents, the range
error `Err(())`, or `crash` for a panicking slice index. -/
inductive WriteMemOutcome
  | ok (newData : List Nat)
  | err
  | crash
deriving DecidableEq, Repr

/-- Embeds `Jit::write_memory` (jit.rs lines 399-412): fail without a
memory; `end := start.checked_add(value.len())`, failing on `usize`
overflow; then `mem.data_unchecked_mut()[start..end].copy_from_slice(value)`
— the slice index panics (`crash`) when `end` exceeds the memory's byte
length.  The source copies in place through the handle; the model returns
the updated contents. -/
def Jit.write_memory (self : Jit) (offset : Nat) (value : List Nat) : WriteMemOutcome :=
  match self.memory with
  | none => .err
  | some mem =>
    let start := offset
    if start + value.length < usizeBound then
      let stop := start + value.length
      if stop ≤ mem.data.length then
        .ok (mem.data.take start ++ value ++ mem.data.drop stop)
      else
        .crash
    else
      .err

/-- The prototype (jit.rs lines 24-34) in its post-construction state.  The
source stores a parked coroutine plus `imported_memory`; the body parked
inside the coroutine (jit.rs lines 110-199) is reified by the values its
locals hold at that point: the instantiated `inst` (field `instance` in the
source; `instance` is a Lean keyword), the `memory` and `indirect_table`
discovered from the exports (body lines 114-137), and `script`, the
abstracted future behaviour of the chosen start function. -/
structure JitPrototype where
  inst : Instance
  memory : Option MemHandle
  indirect_table : Option TableHandle
  imported_memory : Option MemHandle
  script : List CoOutcome

/-- Embeds `JitPrototype::global_value` (jit.rs lines 217-225) together with
the body's `GetGlobal` handler it synchronously drives (body lines 143-156):
an export that is a global holding an `I32` yields its bits reinterpreted as
`u32` (`u32::from_ne_bytes(v.to_ne_bytes())`, the identity on bit patterns);
a global holding any other value kind yields `Invalid`; a missing export or
an export of any other extern kind falls into the wildcard arm and yields
`NotFound`. -/
def JitPrototype.global_value (self : JitPrototype) (name : String) :
    Except GlobalValueErr Nat :=
  match self.inst.get_export name with
  | some (Extern.global g) =>
    match g.val with
    | .i32 v => .ok v
    | _ => .error .Invalid
  | _ => .error .NotFound

/-- Result of `JitPrototype::start`: the running machine, a `NewErr`, or
`crash` for the `unimplemented!()` panic on a simultaneous imported and
exported memory (jit.rs line 250). -/
inductive StartOutcome
  | ok (jit : Jit)
  | err (e : NewErr)
  | crash

/-- Embeds `JitPrototype::start` (jit.rs lines 229-261) together with the
body code it drives.  First the `GetMemoryTable` exchange returns clones of
the discovered handles (body lines 157-163); then the `Start` exchange makes
the body resolve the entry export (body lines 170-182): a missing export
answers `Init(Err(FunctionNotFound))`, a non-function export answers
`Init(Err(NotAFunction))`, and both are returned as errors by `start`
(lines 239-246).  On success the final memory handle is resolved (lines
249-254): exported xor imported xor none, and `unimplemented!()` — `crash` —
when both are present.  The `params` argument is accepted but never used,
exactly as in the source. -/
def JitPrototype.start (self : JitPrototype) (function_name : String)
    (params : List WasmValue) : StartOutcome :=
  let exported_memory := self.memory
  let indirect_table := self.indirect_table
  match self.inst.get_export function_name with
  | some e =>
    match e with
    | .func _ =>
      match exported_memory, self.imported_memory with
      | some _, some _ => .crash
      | some m, none =>
        .ok { coroutine := { script := self.script, finished := false },
              memory := some m, indirect_table := indirect_table }
      | none, some m =>
        .ok { coroutine := { script := self.script, finished := false },
              memory := some m, indirect_table := indirect_table }
      | none, none =>
        .ok { coroutine := { script := self.script, finished := false },
              memory := none, indirect_table := indirect_table }
    | _ => .err .NotAFunction
  | none => .err .FunctionNotFound

/-! ## Concrete states used by witnesses and counterexamples -/

/-- A running machine whose resolved memory has size 0. -/
def jitC1 : Jit :=
  { coroutine := { script := [], finished := false },
    memory := some { id := 0, data := [] }, indirect_table := none }

/-- The import signature `(i32) -> i32` used by the unresolved-import input. -/
def sigI32toI32 : Signature := { params := [ValueType.i32], ret := some ValueType.i32 }

/-- A running machine whose context has already finished. -/
def jitPoisoned : Jit :=
  { coroutine := { script := [], finished := true }, memory := none, indirect_table := none }

/-- A running machine whose body is about to finish normally with no value. -/
def jitFinishing : Jit :=
  { coroutine := { script := [CoOutcome.finish (Except.ok none)], finished := false },
    memory := none, indirect_table := none }

/-- A running machine whose body is about to finish with a trap. -/
def jitTrap : Jit :=
  { coroutine := { script := [CoOutcome.finish (Except.error "boom")], finished := false },
    memory := none, indirect_table := none }

/-- A running machine whose body is about to finish with the value 7. -/
def jitOkSeven : Jit :=
  { coroutine := { script := [CoOutcome.finish (Except.ok (some (WasmValue.i32 7)))],
                   finished := false },
    memory := none, indirect_table := none }

/-- A running machine whose body is about to call import 3 with argument 9. -/
def jitInterrupting : Jit :=
  { coroutine := { script := [CoOutcome.interrupt (FromCoroutine.Interrupt 3 [WasmValue.i32 9])],
                   finished := false },
    memory := none, indirect_table := none }

/-- A running machine without a resolved memory. -/
def jitNoMem : Jit :=
  { coroutine := { script := [], finished := false }, memory := none, indirect_table := none }

/-- A prototype whose export named g is a function, not a global. -/
def protoC4 : JitPrototype :=
  { inst := { exports := [("g", Extern.func 0)] },
    memory := none, indirect_table := none, imported_memory := none, script := [] }

/-- A prototype exporting a 32-bit global named g with value 42. -/
def protoC4w : JitPrototype :=
  { inst := { exports := [("g", Extern.global { val := WasmValue.i32 42 })] },
    memory := none, indirect_table := none, imported_memory := none, script := [] }

/-- A prototype with an imported memory only and a callable export main. -/
def protoC6a : JitPrototype :=
  { inst := { exports := [("main", Extern.func 0)] },
    memory := none, indirect_table := none,
    imported_memory := some { id := 7, data := [] }, script := [] }

/-- A prototype with both an exported and an imported memory. -/
def protoC6b : JitPrototype :=
  { inst := { exports := [("main", Extern.func 0)] },
    memory := some { id := 1, data := [] }, indirect_table := none,
    imported_memory := some { id := 2, data := [] }, script := [] }

/-- A prototype whose only export, tbl, is a table. -/
def protoC7 : JitPrototype :=
  { inst := { exports := [("tbl", Extern.table 0)] },
    memory := none, indirect_table := none, imported_memory := none, script := [] }

/-! ## Claims -/

/-- C1: the claim states that read_memory and write_memory return a range
error (and never panic) whenever the requested range overflows or extends
past memory_size.  The code only checks the checked_add overflow; the slice
index `data[start..end]` has no bounds check against the memory size, so an
in-range-arithmetic but past-the-end request panics.  This contradicts the
functions' own doc comments ("Returns an error if the range is invalid or
out of range"): at a machine whose resolved memory has size 0, reading one
byte at offset 0 and writing one byte at offset 0 both crash. -/
theorem c1_out_of_range_access_panics :
    jitC1.memory_size = some 0 ∧
    jitC1.read_memory 0 1 = ReadMemOutcome.crash ∧
    jitC1.write_memory 0 [5] = WriteMemOutcome.crash := by
  refine ⟨rfl, ?_, ?_⟩ <;> decide

/-- C2: the claim states that JitPrototype::new returns an unresolved-import
construction error when the resolver fails.  The code instead calls
`symbols(...).unwrap()` (jit.rs line 63, with the comment "TODO: don't panic
if not found") and panics: on a module importing one function `env.f` whose
resolver rejects everything, the import-resolution block of new crashes
instead of returning an error. -/
theorem c2_unresolved_import_panics :
    buildImports (fun _ _ _ => Except.error ())
      [{ moduleName := "env", name := "f", ty := ImportKind.func sigI32toI32 }] =
      ImportsOutcome.crash := rfl

/-- C3: on a machine whose context has finished, run returns the Poisoned
error and leaves the machine untouched (it never resumes the body); and
whenever a run call returns a Finished outcome, is_poisoned is true
afterwards. -/
theorem c3_poisoned_and_finish_poisons (j : Jit) (v : Option WasmValue) :
    (j.is_poisoned = true → j.run v = (RunResult.err RunErr.Poisoned, j)) ∧
    (∀ r, (j.run v).1 = RunResult.ok (ExecOutcome.finished r) →
      (j.run v).2.is_poisoned = true) := by
  constructor
  · intro h
    simp only [Jit.is_poisoned, Coroutine.is_finished] at h
    simp [Jit.run, Coroutine.is_finished, h]
  · intro r h
    by_cases hf : j.coroutine.finished
    · simp [Jit.run, Coroutine.is_finished, hf] at h
    · cases hs : j.coroutine.script with
      | nil =>
        simp [Jit.is_poisoned, Jit.run, Coroutine.is_finished, Coroutine.run, hf, hs]
      | cons o rest =>
        cases o with
        | interrupt msg =>
          cases msg <;>
            simp [Jit.run, Coroutine.is_finished, Coroutine.run, hf, hs] at h
        | finish result =>
          simp [Jit.is_poisoned, Jit.run, Coroutine.is_finished, Coroutine.run, hf, hs]

/-- Witness for C3 at concrete machines: a finished context rejects run with
Poisoned, and a machine that finishes is poisoned afterwards. -/
theorem c3_witness :
    jitPoisoned.run none = (RunResult.err RunErr.Poisoned, jitPoisoned) ∧
    (jitFinishing.run none).2.is_poisoned = true :=
  ⟨(c3_poisoned_and_finish_poisons jitPoisoned none).1 rfl,
   (c3_poisoned_and_finish_poisons jitFinishing none).2 (Except.ok none) rfl⟩

/-- C4 counterexample: the claim states that global_value returns Invalid
whenever an export of the name exists but is not a scalar 32-bit global.  On
a prototype whose export g is a function, the export exists and is not a
scalar 32-bit global, yet global_value returns NotFound (the non-global arm
falls into the wildcard of the match at jit.rs lines 144-152), and NotFound
differs from Invalid. -/
theorem c4_counterexample :
    protoC4.inst.get_export "g" = some (Extern.func 0) ∧
    protoC4.global_value "g" = Except.error GlobalValueErr.NotFound ∧
    GlobalValueErr.NotFound ≠ GlobalValueErr.Invalid :=
  ⟨rfl, rfl, by decide⟩

/-- C4 (amended): global_value returns NotFound when the name has no export
or when its export is not a global (function, memory or table); Invalid when
the export is a global holding a non-32-bit value; and the numeric value of
an exported 32-bit global otherwise. -/
theorem c4_global_value_cases (p : JitPrototype) (name : String) :
    (p.inst.get_export name = none →
      p.global_value name = Except.error GlobalValueErr.NotFound) ∧
    (∀ f, p.inst.get_export name = some (Extern.func f) →
      p.global_value name = Except.error GlobalValueErr.NotFound) ∧
    (∀ m, p.inst.get_export name = some (Extern.memory m) →
      p.global_value name = Except.error GlobalValueErr.NotFound) ∧
    (∀ t, p.inst.get_export name = some (Extern.table t) →
      p.global_value name = Except.error GlobalValueErr.NotFound) ∧
    (∀ g, p.inst.get_export name = some (Extern.global g) →
      (∀ v, g.val ≠ WasmValue.i32 v) →
      p.global_value name = Except.error GlobalValueErr.Invalid) ∧
    (∀ v, p.inst.get_export name = some (Extern.global { val := WasmValue.i32 v }) →
      p.global_value name = Except.ok v) := by
  refine ⟨?_, ?_, ?_, ?_, ?_, ?_⟩
  · intro h; simp [JitPrototype.global_value, h]
  · intro f h; simp [JitPrototype.global_value, h]
  · intro m h; simp [JitPrototype.global_value, h]
  · intro t h; simp [JitPrototype.global_value, h]
  · intro g h hv
    cases hg : g.val with
    | i32 bits => exact absurd hg (hv bits)
    | i64 bits => simp [JitPrototype.global_value, h, hg]
    | f32 bits => simp [JitPrototype.global_value, h, hg]
    | f64 bits => simp [JitPrototype.global_value, h, hg]
  · intro v h; simp [JitPrototype.global_value, h]

/-- Witness for C4 (amended) at concrete prototypes: an exported 32-bit
global equal to 42 reads back as 42, and a missing name reads back as
NotFound. -/
theorem c4_witness :
    protoC4w.global_value "g" = Except.ok 42 ∧
    protoC4w.global_value "missing" = Except.error GlobalValueErr.NotFound :=
  ⟨(c4_global_value_cases protoC4w "g").2.2.2.2.2 42 rfl,
   (c4_global_value_cases protoC4w "missing").1 rfl⟩

/-- C5: on a non-poisoned machine, run maps the context's outcome exactly:
a trap finish becomes a Finished outcome carrying the generic failure, a
normal finish becomes a Finished outcome carrying the optional return value,
and an import-call interrupt becomes an Interrupted outcome carrying the
resolved index and the argument values. -/
theorem c5_run_outcome_mapping (j : Jit) (v : Option WasmValue)
    (h : j.is_poisoned = false) :
    (∀ t rest, j.coroutine.script = CoOutcome.finish (Except.error t) :: rest →
      (j.run v).1 = RunResult.ok (ExecOutcome.finished (Except.error ()))) ∧
    (∀ r rest, j.coroutine.script = CoOutcome.finish (Except.ok r) :: rest →
      (j.run v).1 = RunResult.ok (ExecOutcome.finished (Except.ok r))) ∧
    (∀ idx ps rest,
      j.coroutine.script = CoOutcome.interrupt (FromCoroutine.Interrupt idx ps) :: rest →
      (j.run v).1 = RunResult.ok (ExecOutcome.interrupted idx ps)) := by
  simp only [Jit.is_poisoned, Coroutine.is_finished] at h
  refine ⟨?_, ?_, ?_⟩
  · intro t rest hs
    simp [Jit.run, Coroutine.is_finished, Coroutine.run, h, hs]
  · intro r rest hs
    simp [Jit.run, Coroutine.is_finished, Coroutine.run, h, hs]
  · intro idx ps rest hs
    simp [Jit.run, Coroutine.is_finished, Coroutine.run, h, hs]

/-- Witness for C5 at concrete machines: a trapping body, a body returning
7, and a body calling import 3 with argument 9. -/
theorem c5_witness :
    (jitTrap.run none).1 = RunResult.ok (ExecOutcome.finished (Except.error ())) ∧
    (jitOkSeven.run none).1 =
      RunResult.ok (ExecOutcome.finished (Except.ok (some (WasmValue.i32 7)))) ∧
    (jitInterrupting.run none).1 = RunResult.ok (ExecOutcome.interrupted 3 [WasmValue.i32 9]) :=
  ⟨(c5_run_outcome_mapping jitTrap none rfl).1 "boom" [] rfl,
   (c5_run_outcome_mapping jitOkSeven none rfl).2.1 (some (WasmValue.i32 7)) [] rfl,
   (c5_run_outcome_mapping jitInterrupting none rfl).2.2 3 [WasmValue.i32 9] [] rfl⟩

/-- C6: when the entry export resolves to a function, start resolves the
final memory handle as the imported memory when only an imported memory
exists, as the exported memory when only an exported memory exists, and as
absent when neither exists; when both are present simultaneously, start
aborts through the unimplemented-case panic (the crash outcome) instead of
silently preferring one handle. -/
theorem c6_memory_resolution (p : JitPrototype) (name : String)
    (params : List WasmValue) (f : FuncH)
    (hf : p.inst.get_export name = some (Extern.func f)) :
    (∀ m, p.imported_memory = some m → p.memory = none →
      p.start name params =
        StartOutcome.ok { coroutine := { script := p.script, finished := false },
                          memory := some m, indirect_table := p.indirect_table }) ∧
    (∀ m, p.memory = some m → p.imported_memory = none →
      p.start name params =
        StartOutcome.ok { coroutine := { script := p.script, finished := false },
                          memory := some m, indirect_table := p.indirect_table }) ∧
    (p.memory = none → p.imported_memory = none →
      p.start name params =
        StartOutcome.ok { coroutine := { script := p.script, finished := false },
                          memory := none, indirect_table := p.indirect_table }) ∧
    (∀ m m2, p.memory = some m → p.imported_memory = some m2 →
      p.start name params = StartOutcome.crash) := by
  refine ⟨?_, ?_, ?_, ?_⟩
  · intro m h1 h2; simp [JitPrototype.start, hf, h1, h2]
  · intro m h1 h2; simp [JitPrototype.start, hf, h1, h2]
  · intro h1 h2; simp [JitPrototype.start, hf, h1, h2]
  · intro m m2 h1 h2; simp [JitPrototype.start, hf, h1, h2]

/-- Witness for C6 at concrete prototypes: an imported-only memory becomes
the resolved handle, and an imported-plus-exported pair aborts. -/
theorem c6_witness :
    protoC6a.start "main" [] =
      StartOutcome.ok { coroutine := { script := [], finished := false },
                        memory := some { id := 7, data := [] }, indirect_table := none } ∧
    protoC6b.start "main" [] = StartOutcome.crash :=
  ⟨(c6_memory_resolution protoC6a "main" [] 0 rfl).1 { id := 7, data := [] } rfl rfl,
   (c6_memory_resolution protoC6b "main" [] 0 rfl).2.2.2
     { id := 1, data := [] } { id := 2, data := [] } rfl rfl⟩

/-- C7: start fails with FunctionNotFound when the module has no export of
the entry name, and with NotAFunction when the export exists but is a
global, a memory or a table instead of a callable function; both errors are
returned to the caller of start. -/
theorem c7_start_export_errors (p : JitPrototype) (name : String)
    (params : List WasmValue) :
    (p.inst.get_export name = none →
      p.start name params = StartOutcome.err NewErr.FunctionNotFound) ∧
    (∀ g, p.inst.get_export name = some (Extern.global g) →
      p.start name params = StartOutcome.err NewErr.NotAFunction) ∧
    (∀ m, p.inst.get_export name = some (Extern.memory m) →
      p.start name params = StartOutcome.err NewErr.NotAFunction) ∧
    (∀ t, p.inst.get_export name = some (Extern.table t) →
      p.start name params = StartOutcome.err NewErr.NotAFunction) := by
  refine ⟨?_, ?_, ?_, ?_⟩
  · intro h; simp [JitPrototype.start, h]
  · intro g h; simp [JitPrototype.start, h]
  · intro m h; simp [JitPrototype.start, h]
  · intro t h; simp [JitPrototype.start, h]

/-- Witness for C7 at a concrete prototype whose only export tbl is a
table: a missing entry name fails FunctionNotFound, the table export fails
NotAFunction. -/
theorem c7_witness :
    protoC7.start "nope" [] = StartOutcome.err NewErr.FunctionNotFound ∧
    protoC7.start "tbl" [] = StartOutcome.err NewErr.NotAFunction :=
  ⟨(c7_start_export_errors protoC7 "nope" []).1 rfl,
   (c7_start_export_errors protoC7 "tbl" []).2.2.2 0 rfl⟩

/-- C8: the trampoline's write-back has matching arity: when the driver
supplies a value and the import's return slot has one cell, exactly that
value is written into the slot; when the driver supplies none and the slot
is empty, nothing is written; any mismatch between the supplied resume value
and the slot fails the assertion (the crash outcome), it is not a
recoverable error. -/
theorem c8_trampoline_arity (ret_val : List WasmValue) (v : WasmValue) :
    (ret_val.length = 1 →
      trampolineWriteBack (ToCoroutine.Resume (some v)) ret_val = TrampolineOutcome.ok [v]) ∧
    (ret_val = [] →
      trampolineWriteBack (ToCoroutine.Resume none) ret_val = TrampolineOutcome.ok []) ∧
    (ret_val.length ≠ 1 →
      trampolineWriteBack (ToCoroutine.Resume (some v)) ret_val = TrampolineOutcome.crash) ∧
    (ret_val ≠ [] →
      trampolineWriteBack (ToCoroutine.Resume none) ret_val = TrampolineOutcome.crash) := by
  refine ⟨?_, ?_, ?_, ?_⟩
  · intro h; simp [trampolineWriteBack, h]
  · intro h; subst h; simp [trampolineWriteBack]
  · intro h; simp [trampolineWriteBack, h]
  · intro h; simp [trampolineWriteBack, List.isEmpty_iff, h]

/-- Witness for C8 at concrete slots: a one-cell slot receives the supplied
value 5, an empty slot stays empty for a void import, and supplying a value
to an empty slot fails the assertion. -/
theorem c8_witness :
    trampolineWriteBack (ToCoroutine.Resume (some (WasmValue.i32 5))) [WasmValue.i32 0] =
      TrampolineOutcome.ok [WasmValue.i32 5] ∧
    trampolineWriteBack (ToCoroutine.Resume none) [] = TrampolineOutcome.ok [] ∧
    trampolineWriteBack (ToCoroutine.Resume (some (WasmValue.i32 5))) [] =
      TrampolineOutcome.crash :=
  ⟨(c8_trampoline_arity [WasmValue.i32 0] (WasmValue.i32 5)).1 rfl,
   (c8_trampoline_arity [] (WasmValue.i32 5)).2.1 rfl,
   (c8_trampoline_arity [] (WasmValue.i32 5)).2.2.1 (by decide)⟩

/-- C9: on a machine without a resolved memory, memory_size returns 0 (and
does not panic), and read_memory and write_memory return the range error for
every offset, size and byte list, including offset 0 and size 0; none of the
three reaches a panicking path. -/
theorem c9_no_memory_behavior (j : Jit) (h : j.memory = none)
    (offset size : Nat) (value : List Nat) :
    j.memory_size = some 0 ∧
    j.read_memory offset size = ReadMemOutcome.err ∧
    j.write_memory offset value = WriteMemOutcome.err := by
  refine ⟨?_, ?_, ?_⟩ <;>
    simp [Jit.memory_size, Jit.read_memory, Jit.write_memory, h]

/-- Witness for C9 at a concrete memoryless machine with offset 0 and size
0. -/
theorem c9_witness :
    jitNoMem.memory_size = some 0 ∧
    jitNoMem.read_memory 0 0 = ReadMemOutcome.err ∧
    jitNoMem.write_memory 0 [] = WriteMemOutcome.err :=
  c9_no_memory_behavior jitNoMem rfl 0 0 []

/-- C10: run never changes the machine's memory handle or its indirect
function table handle, whatever the outcome (Finished, Interrupted or the
Poisoned error): it only advances the coroutine. -/
theorem c10_run_preserves_memory_and_table (j : Jit) (v : Option WasmValue) :
    ((j.run v).2.memory = j.memory) ∧ ((j.run v).2.indirect_table = j.indirect_table) := by
  by_cases hf : j.coroutine.finished <;>
    simp [Jit.run, Coroutine.is_finished, hf]
